import Mathlib

/-!
Verification of the transaction-orchestration engine of `bot.py`
(GIWA ↔ Sepolia bridge bot).

The Python functions are shallowly embedded as pure Lean functions.
Interactions with the outside world (RPC reads, broadcast results,
receipts, balances) are supplied through explicit environment records:
each field of an environment is the value the corresponding external
call would have produced (or `none` / `.error` when that call raises).
Python integers are `ℕ`/`ℤ`; the few float constants (fee multipliers
2.5/4.0, the 1.25 bump, the 1.15 gas scale) are modelled by exact
rational arithmetic with explicit truncation, matching the Python
`int(...)` of the exact real value.
-/

deriving instance DecidableEq for Except

namespace GiwaBot

/-- Per-network binding (`Chain` dataclass, bot.py:294): only the fields read
by the engine logic are kept — the network name tag (selects the fee profile
and the L2 balance guard) and the locally tracked next nonce. -/
structure Chain where
  name : String
  nonce : ℕ
deriving DecidableEq, Repr

/-- A not-yet-signed transaction dict as seen by `build_and_send`
(bot.py:409): fields that may or may not be pre-set by the caller are
`Option`s (`tx.setdefault` fills them), `value` defaults to 0 via
`tx.get("value", 0)`. The `data` field is the hex calldata string when the
dict carries a `"data"` entry. -/
structure Tx where
  maxPriorityFeePerGas : Option ℕ := none
  maxFeePerGas : Option ℕ := none
  chainId : Option ℕ := none
  nonce : Option ℕ := none
  gas : Option ℕ := none
  data : Option String := none
  value : ℕ := 0
deriving DecidableEq, Repr

/-- Boolean model of the Python `s.startswith(pre)`, via the decidable
list-prefix relation on the character lists. -/
def startsWith (s pre : String) : Bool := decide (pre.toList <+: s.toList)

/-- Fee profile lookup (bot.py:312): GIWA-prefixed networks get
(2.0 gwei tip, 2.5 multiplier), everything else (8.0 gwei, 4.0).
The float pairs are represented exactly as rationals. -/
def fee_profile (chain_name : String) : ℚ × ℚ :=
  if startsWith chain_name "GIWA" then (2, 5/2) else (8, 4)

/-- Web3.to_wei(x, "gwei"): exact for the decimal inputs used here. -/
def to_wei_gwei (x : ℚ) : ℕ := (⌊x * 10^9⌋).toNat

/-- EIP-1559 fee computation (bot.py:319).  `feeHistoryBase` is the base fee
read from `fee_history` (`none` when that RPC call raises, in which case the
fixed 2-gwei default is substituted).  Returns (base, priority, max_fee) with
`max_fee = int(base * max_multiplier + priority * 2)` computed over exact
rationals. -/
def get_eip1559_fees (feeHistoryBase : Option ℕ) (tip_gwei max_multiplier : ℚ) :
    ℕ × ℕ × ℕ :=
  let base := feeHistoryBase.getD (2 * 10^9)
  let priority := to_wei_gwei tip_gwei
  let max_fee := (⌊(base : ℚ) * max_multiplier + (priority : ℚ) * 2⌋).toNat
  (base, priority, max_fee)

/-- Gas estimation with cap (bot.py:357).  `estimateResult` is the estimate
returned by the node (`none` when `estimate_gas` raises).  On success it is
scaled by 1.15 (exact-arithmetic model of `int(est * 1.15)`) and capped at
`default_cap`; on failure the cap itself is returned. -/
def estimate_and_cap_gas (estimateResult : Option ℕ) (default_cap : ℕ) : ℕ :=
  match estimateResult with
  | some est => min (est * 115 / 100) default_cap
  | none => default_cap

/-- Default gas cap selection (bot.py:420):
`700_000 if (tx.get("data") and len(tx.get("data")) > 2) else 300_000`.
Python truthiness of the string is the `s.length ≠ 0` conjunct. -/
def default_gas_cap (data : Option String) : ℕ :=
  match data with
  | none => 300000
  | some s => if s.length ≠ 0 ∧ 2 < s.length then 700000 else 300000

/-- Gas field fill-in of `build_and_send` (bot.py:419-425): a pre-set gas
field is kept, otherwise the estimate is taken and capped at the
data-dependent default cap. -/
def chosen_gas (estimateResult : Option ℕ) (tx : Tx) : ℕ :=
  match tx.gas with
  | some g => g
  | none => estimate_and_cap_gas estimateResult (default_gas_cap tx.data)

/-- Native-balance sufficiency check (bot.py:369):
`balance ≥ value + gas * max_fee_per_gas`. -/
def ensure_funds_for_tx (balance value gas max_fee_per_gas : ℕ) : Bool :=
  balance ≥ value + gas * max_fee_per_gas

/-- Classification of a broadcast rejection as "underpriced" (bot.py:444):
`"underpriced" in str(e) or "replacement transaction underpriced" in str(e)`. -/
def isUnderpriced (msg : String) : Bool :=
  decide ("underpriced".toList <:+: msg.toList) ||
    decide ("replacement transaction underpriced".toList <:+: msg.toList)

/-- Fee bump on an underpriced rejection (bot.py:446-447):
`int(x * REPLACE_BUMP)` with `REPLACE_BUMP = 1.25`, modelled exactly. -/
def bump (x : ℕ) : ℕ := x * 5 / 4

/-- External-world outcomes consumed by one `build_and_send` call.
`send1`/`send2` are the results of the (at most two) raw-transaction
broadcasts: a transaction hash on acceptance, the stringified exception on
rejection.  `balance` / `balanceAfterWait` are the native balances read by
the two possible `ensure_funds_for_tx` checks on a GIWA-tagged chain (the
boolean result of the intervening `wait_for_l2_credit` call is discarded by
the code, bot.py:432, so only the later balance read matters). -/
structure SendEnv where
  baseFee : Option ℕ := none
  chainId : ℕ := 0
  estimateGas : Option ℕ := none
  balance : ℕ := 0
  balanceAfterWait : ℕ := 0
  send1 : Except String String := .error ""
  send2 : Except String String := .error ""
deriving DecidableEq, Repr

/-- One signed-and-broadcast attempt: the fee fields, nonce and gas that went
into `sign_transaction` just before a `send_raw_transaction` call. -/
structure Attempt where
  tip : ℕ
  maxFee : ℕ
  nonce : ℕ
  gas : ℕ
deriving DecidableEq, Repr

/-- Result of `build_and_send`: the returned hash or the raised exception
message, the chain nonce after the call, and the broadcasts performed. -/
structure SendOutcome where
  result : Except String String
  nonce : ℕ
  attempts : List Attempt
deriving DecidableEq, Repr

/-- Fee fields filled in by `tx.setdefault` (bot.py:414-415): a pre-set field
is kept, otherwise the freshly quoted priority tip (resp. max fee) is used. -/
def filled_tip (env : SendEnv) (chain : Chain) (tx : Tx) : ℕ :=
  tx.maxPriorityFeePerGas.getD
    (get_eip1559_fees env.baseFee (fee_profile chain.name).1
      (fee_profile chain.name).2).2.1

/-- Companion of `filled_tip` for the `maxFeePerGas` field. -/
def filled_max_fee (env : SendEnv) (chain : Chain) (tx : Tx) : ℕ :=
  tx.maxFeePerGas.getD
    (get_eip1559_fees env.baseFee (fee_profile chain.name).1
      (fee_profile chain.name).2).2.2

/-- L2 destination-balance guard of `build_and_send` (bot.py:427-435): on a
GIWA-tagged chain the submission is aborted when the native balance covers
the worst-case cost neither before nor after the wait-for-credit pause. -/
def l2_guard_fails (env : SendEnv) (chain : Chain) (tx : Tx) : Bool :=
  startsWith chain.name "GIWA" &&
    !ensure_funds_for_tx env.balance tx.value (chosen_gas env.estimateGas tx)
      (filled_max_fee env chain tx) &&
    !ensure_funds_for_tx env.balanceAfterWait tx.value
      (chosen_gas env.estimateGas tx) (filled_max_fee env chain tx)

/-- Transaction submitter (bot.py:409-453).  Fills missing fee/chain-id/
nonce/gas fields, runs the L2 balance guard on GIWA-tagged chains, signs and
broadcasts; on success advances `chain.nonce` by one; on an "underpriced"
rejection with `allow_speedup` it bumps both fee fields by 1.25, re-signs and
rebroadcasts exactly once; any other failure (and a failed retry) propagates
with the nonce unchanged. -/
def build_and_send (env : SendEnv) (chain : Chain) (tx : Tx)
    (allow_speedup : Bool) : SendOutcome :=
  let tip := filled_tip env chain tx
  let max_fee := filled_max_fee env chain tx
  let nonce := tx.nonce.getD chain.nonce
  let gas := chosen_gas env.estimateGas tx
  if l2_guard_fails env chain tx then
    { result := .error "L2 余额仍不足以覆盖交易成本"
      nonce := chain.nonce
      attempts := [] }
  else
    let a1 : Attempt := ⟨tip, max_fee, nonce, gas⟩
    match env.send1 with
    | .ok h => { result := .ok h, nonce := chain.nonce + 1, attempts := [a1] }
    | .error e =>
      if allow_speedup && isUnderpriced e then
        let a2 : Attempt := ⟨bump tip, bump max_fee, nonce, gas⟩
        match env.send2 with
        | .ok h =>
          { result := .ok h, nonce := chain.nonce + 1, attempts := [a1, a2] }
        | .error e2 =>
          { result := .error e2, nonce := chain.nonce, attempts := [a1, a2] }
      else { result := .error e, nonce := chain.nonce, attempts := [a1] }

/-- Transaction receipt (the fields the engine reads): inclusion status and
gas used. -/
structure Receipt where
  status : ℕ
  gasUsed : ℕ := 0
deriving DecidableEq, Repr

/-- Outcome of one `get_transaction_receipt` poll, reduced to what the loop
body of `wait_receipt_with_progress` observes: `some r` when a (truthy)
receipt came back, `none` when the lookup raised or returned nothing. -/
def receipt_of (r : Except Unit (Option Receipt)) : Option Receipt :=
  match r with
  | .ok (some rcpt) => some rcpt
  | _ => none

/-- Polling loop of `wait_receipt_with_progress` (bot.py:335-350): `poll i`
is the result of the lookup at the i-th iteration, `fuel` the number of
iterations the timeout still admits.  Returns the receipt found (or `none`
at timeout) together with the number of polls performed. -/
def wait_receipt_go (poll : ℕ → Except Unit (Option Receipt)) :
    ℕ → ℕ → Option Receipt × ℕ
  | i, 0 => (none, i)
  | i, fuel + 1 =>
    match receipt_of (poll i) with
    | some r => (some r, i + 1)
    | none => wait_receipt_go poll (i + 1) fuel

/-- Receipt waiter (bot.py:329-355): polls at the fixed interval until a
receipt is present (returned immediately, whatever its status; a lookup
error is remembered and polling continues) or the timeout — modelled as the
number `maxPolls` of iterations it admits — elapses, in which case `none` is
returned rather than an exception raised. -/
def wait_receipt_with_progress (poll : ℕ → Except Unit (Option Receipt))
    (maxPolls : ℕ) : Option Receipt × ℕ :=
  wait_receipt_go poll 0 maxPolls

/-- Polling loop of `wait_for_l2_credit` (bot.py:391-403): `balances i` is
the destination balance read at the i-th poll; the loop stops with `true` as
soon as the delta against `before_balance` reaches `expect_min_delta`. -/
def wait_for_l2_credit_go (balances : ℕ → ℕ) (before_balance : ℕ)
    (expect_min_delta : ℤ) : ℕ → ℕ → Bool
  | _, 0 => false
  | i, fuel + 1 =>
    if expect_min_delta ≤ (balances i : ℤ) - (before_balance : ℤ) then true
    else wait_for_l2_credit_go balances before_balance expect_min_delta
      (i + 1) fuel

/-- Cross-chain credit waiter (bot.py:384-407): returns `true` once some
polled destination balance exceeds the before-balance by at least the
expected minimum delta, `false` when the timeout — modelled as the number
`maxPolls` of poll iterations it admits — elapses first; it never raises. -/
def wait_for_l2_credit (balances : ℕ → ℕ) (before_balance : ℕ)
    (expect_min_delta : ℤ) (maxPolls : ℕ) : Bool :=
  wait_for_l2_credit_go balances before_balance expect_min_delta 0 maxPolls

/-- Receipt test `not rcpt or rcpt["status"] != 1` used after each broadcast
(bot.py:492, 570, 612, 728): true when no receipt was obtained before the
timeout or the obtained receipt reports on-chain failure. -/
def receipt_not_success : Option Receipt → Bool
  | none => true
  | some r => decide (r.status ≠ 1)

/-- External-world outcomes consumed by one `check_and_claim_erc20_balance`
call: the pre-call token balance, the `decimals()` read (`none` when it
raises; defaulted to 18, display only), the result of the faucet-claim
submission (`.error` when anything inside the try block raises, including a
rejected broadcast), the receipt poll for the faucet transaction, and the
re-read balance after a confirmed claim. -/
structure ClaimEnv where
  balance : ℕ
  decimals : Option ℕ := some 18
  claimSend : Except String String := .error ""
  claimReceipt : Option Receipt := none
  newBalance : ℕ := 0
deriving DecidableEq, Repr

/-- Faucet-backed balance check (bot.py:459-525).  Returns the boolean
result of the Python function together with a flag recording whether the
faucet-claim flow was entered at all.  Branches, in source order: sufficient
pre-call balance → `(true, no faucet)`; faucet transaction submitted but
receipt absent or failed → `false`; receipt confirmed → re-read balance,
sufficient → `true`, else `true` iff positive; any exception inside the try
block → `true` iff the pre-call balance was positive. -/
def check_and_claim_erc20_balance (env : ClaimEnv) (required_amount : ℕ) :
    Bool × Bool :=
  if required_amount ≤ env.balance then (true, false)
  else
    match env.claimSend with
    | .error _ => (decide (0 < env.balance), true)
    | .ok _ =>
      if receipt_not_success env.claimReceipt then (false, true)
      else if required_amount ≤ env.newBalance then (true, true)
      else (decide (0 < env.newBalance), true)

/-- Approval ceiling `Web3.to_wei("1000000", "ether")` (bot.py:564). -/
def APPROVE_CEILING : ℕ := 10 ^ 24

/-- Outcome of one `ensure_allowance` call: the on-chain allowance after the
call (a confirmed `approve(spender, amount)` sets the allowance to `amount`,
per the ERC-20 contract surface of spec §6; a reverted or unconfirmed one is
modelled as leaving it unchanged), whether an approval transaction was
issued, and whether the call raised. -/
structure AllowanceOutcome where
  allowance : ℕ
  txIssued : Bool
  raised : Bool
deriving DecidableEq, Repr

/-- Allowance manager (bot.py:539-574): a sufficient current allowance is a
no-op; otherwise an approval for `max(min_amount * 10, APPROVE_CEILING)` is
submitted and its receipt awaited (`receiptOk` is the oracle for that
confirmation); a missing or failed receipt raises. -/
def ensure_allowance (receiptOk : Bool) (current min_amount : ℕ) :
    AllowanceOutcome :=
  if min_amount ≤ current then ⟨current, false, false⟩
  else
    let approve_amount := max (min_amount * 10) APPROVE_CEILING
    if receiptOk then ⟨approve_amount, true, false⟩
    else ⟨current, true, true⟩

/-- Recovery threshold `Web3.to_wei("0.01", "ether")` (bot.py:657). -/
def RECOVERY_MIN_L1_ETH : ℕ := 10 ^ 16

/-- External-world outcomes consumed by one `withdraw_erc20_to_l1` call:
the destination (L2) token balance read first, the source (L1) native
balance read by the recovery branch, the outcome of the recovery sub-flow
beyond the threshold check (`.ok true` = the claim-then-deposit sequence
completed and the function returned early, `.ok false` = the sequence fell
through without an exception, `.error` = it raised; paired with the number
of raw-transaction broadcasts it performed), and, for the main withdraw
path, the submission environment, the calldata built by
`bridge.functions.withdraw(...).build_transaction` as a function of the
encoded amount, and the receipt poll for the withdraw transaction. -/
structure WithdrawEnv where
  l2TokenBalance : ℕ
  l1EthBalance : ℕ := 0
  recoverySubflow : Except String Bool × ℕ := (.ok false, 0)
  sendEnv : SendEnv := {}
  withdrawTxData : ℕ → String := fun _ => "0x32b7006d"
  withdrawReceipt : Option Receipt := none

/-- Token withdrawal L2→L1 (bot.py:642-738).  Returns the outcome (`.ok` on
a confirmed withdraw or on a successfully initiated recovery deposit,
`.error e` when the Python function raises `e`) together with the number of
raw-transaction broadcasts performed.  With a zero destination balance the
recovery branch runs: below the L1-ETH threshold it raises before any
signing or broadcasting, and a failed or fallen-through recovery ends in the
final `RuntimeError`; with a positive destination balance the requested
amount is clamped down to it and the bridge withdraw call is submitted and
awaited. -/
def withdraw_erc20_to_l1 (env : WithdrawEnv) (l2 : Chain) (amount : ℕ) :
    Except String Unit × ℕ :=
  let actual := env.l2TokenBalance
  if actual = 0 then
    let sub : Except String Bool × ℕ :=
      if env.l1EthBalance < RECOVERY_MIN_L1_ETH then
        (.error "L1 ETH 余额不足，无法执行代币领取和桥接操作", 0)
      else env.recoverySubflow
    match sub with
    | (.ok true, n) => (.ok (), n)
    | (.ok false, n) => (.error "L2 ERC-20 代币余额不足，已尝试自动获取但失败", n)
    | (.error _, n) => (.error "L2 ERC-20 代币余额不足，已尝试自动获取但失败", n)
  else
    let amt := if actual < amount then actual else amount
    let tx : Tx := { data := some (env.withdrawTxData amt), value := 0 }
    let o := build_and_send env.sendEnv l2 tx true
    match o.result with
    | .error e => (.error e, o.attempts.length)
    | .ok _ =>
      if receipt_not_success env.withdrawReceipt then
        (.error "ERC-20 提现初始化失败", o.attempts.length)
      else (.ok (), o.attempts.length)

/-- C1: for every `build_and_send` call, a successful broadcast (first
attempt or bumped retry) leaves the locally tracked next nonce at its entry
value plus exactly 1, a raising call leaves it unchanged, and the nonce is
never decremented. -/
theorem build_and_send_nonce_spec (env : SendEnv) (chain : Chain) (tx : Tx)
    (allow_speedup : Bool) :
    (∀ h, (build_and_send env chain tx allow_speedup).result = .ok h →
        (build_and_send env chain tx allow_speedup).nonce = chain.nonce + 1) ∧
    (∀ e, (build_and_send env chain tx allow_speedup).result = .error e →
        (build_and_send env chain tx allow_speedup).nonce = chain.nonce) ∧
    chain.nonce ≤ (build_and_send env chain tx allow_speedup).nonce := by
  unfold build_and_send
  dsimp only
  repeat' split
  all_goals
    refine ⟨fun h hh => ?_, fun e he => ?_, ?_⟩ <;> simp_all

/-- Concrete run of `build_and_send_nonce_spec`: an accepted first broadcast
from nonce 7 leaves the handle at nonce 8. -/
def envC1 : SendEnv := { send1 := .ok "0xabc" }

theorem build_and_send_nonce_spec_witness :
    (build_and_send envC1 ⟨"Sepolia", 7⟩ {} true).result = .ok "0xabc" ∧
    (build_and_send envC1 ⟨"Sepolia", 7⟩ {} true).nonce = 8 :=
  ⟨by decide,
   (build_and_send_nonce_spec envC1 ⟨"Sepolia", 7⟩ {} true).1 "0xabc" (by decide)⟩

/-- C5: the gas estimator never exceeds the supplied cap, returns exactly the
cap when the scaled node estimate exceeds it, and returns exactly the cap
when the estimation call raises. -/
theorem estimate_and_cap_gas_spec (est : Option ℕ) (cap : ℕ) :
    estimate_and_cap_gas est cap ≤ cap ∧
    (∀ n, est = some n → cap < n * 115 / 100 →
        estimate_and_cap_gas est cap = cap) ∧
    (est = none → estimate_and_cap_gas est cap = cap) := by
  cases est with
  | none => exact ⟨Nat.le_refl cap, fun n hn => by simp at hn, fun _ => rfl⟩
  | some n =>
    exact ⟨Nat.min_le_right _ _,
      fun m hm hlt => by
        injection hm with hm
        subst hm
        exact min_eq_right (Nat.le_of_lt hlt),
      fun h => by simp at h⟩

/-- Concrete run of `estimate_and_cap_gas_spec` at the example of spec §8:
estimate 1,000,000 against cap 300,000 returns exactly 300,000. -/
theorem estimate_and_cap_gas_spec_witness :
    estimate_and_cap_gas (some 1000000) 300000 = 300000 :=
  (estimate_and_cap_gas_spec (some 1000000) 300000).2.1 1000000 rfl (by norm_num)

/-- C10: the default gas cap chosen by `build_and_send` when the caller did
not pre-set a gas field is 700,000 exactly when the transaction carries a
data entry whose hex-string length exceeds 2, and 300,000 otherwise; in
particular the empty-payload string "0x" gets 300,000, and the cap feeds the
gas estimation of the submission pipeline. -/
theorem default_gas_cap_spec :
    (∀ data, default_gas_cap data = 700000 ↔
        ∃ s, data = some s ∧ 2 < s.length) ∧
    (∀ data, default_gas_cap data = 700000 ∨ default_gas_cap data = 300000) ∧
    default_gas_cap (some "0x") = 300000 ∧
    (∀ est tx, tx.gas = none →
        chosen_gas est tx = estimate_and_cap_gas est (default_gas_cap tx.data)) := by
  refine ⟨fun data => ?_, fun data => ?_, by decide, fun est tx hg => ?_⟩
  · cases data with
    | none => simp [default_gas_cap]
    | some s =>
      by_cases h : 2 < s.length
      · have hne : s.length ≠ 0 := by omega
        simp [default_gas_cap, h, hne]
      · simp [default_gas_cap, h]
  · cases data with
    | none => simp [default_gas_cap]
    | some s =>
      simp only [default_gas_cap]
      split <;> simp
  · simp only [chosen_gas, hg]

/-- Concrete run of `default_gas_cap_spec`: a 10-character calldata string
selects the 700,000 cap, and with no node estimate the chosen gas is that
cap. -/
theorem default_gas_cap_spec_witness :
    default_gas_cap (some "0xa9059cbb") = 700000 ∧
    chosen_gas none { gas := none, data := some "0xa9059cbb" } = 700000 :=
  ⟨(default_gas_cap_spec.1 (some "0xa9059cbb")).mpr ⟨"0xa9059cbb", rfl, by decide⟩,
   (default_gas_cap_spec.2.2.2 none { gas := none, data := some "0xa9059cbb" }
      rfl).trans (by decide)⟩

/-- Arithmetic core of the max-fee bound: for a nonnegative multiplier the
floored sum dominates the doubled tip, and splits as floored product plus
doubled tip. -/
lemma floor_tip_bound (b p : ℕ) (m : ℚ) (hm : 0 ≤ m) :
    p * 2 ≤ (⌊(b : ℚ) * m + (p : ℚ) * 2⌋).toNat ∧
    (((⌊(b : ℚ) * m + (p : ℚ) * 2⌋).toNat : ℤ)) = ⌊(b : ℚ) * m⌋ + (p : ℤ) * 2 := by
  have h1 : ⌊(b : ℚ) * m + (p : ℚ) * 2⌋ = ⌊(b : ℚ) * m⌋ + ((p * 2 : ℕ) : ℤ) := by
    rw [show ((p : ℚ) * 2) = (((p * 2 : ℕ) : ℤ) : ℚ) from by push_cast; ring,
      Int.floor_add_int]
  have h2 : (0 : ℤ) ≤ ⌊(b : ℚ) * m⌋ := Int.floor_nonneg.mpr (by positivity)
  constructor <;> omega

/-- C6: every fee quote produced by `get_eip1559_fees` from the fixed
per-network profiles — whether the base fee was read from fee history or
substituted by the 2-gwei default — satisfies max fee ≥ priority tip × 2,
and the max fee is the truncation of base × multiplier + tip × 2. -/
theorem get_eip1559_fees_spec (chain_name : String) (fh : Option ℕ) :
    (get_eip1559_fees fh (fee_profile chain_name).1
        (fee_profile chain_name).2).2.1 * 2 ≤
      (get_eip1559_fees fh (fee_profile chain_name).1
        (fee_profile chain_name).2).2.2 ∧
    (((get_eip1559_fees fh (fee_profile chain_name).1
        (fee_profile chain_name).2).2.2 : ℤ)) =
      ⌊((get_eip1559_fees fh (fee_profile chain_name).1
          (fee_profile chain_name).2).1 : ℚ) * (fee_profile chain_name).2⌋ +
        ((get_eip1559_fees fh (fee_profile chain_name).1
          (fee_profile chain_name).2).2.1 : ℤ) * 2 := by
  have hm : (0 : ℚ) ≤ (fee_profile chain_name).2 := by
    unfold fee_profile; split <;> norm_num
  have h := floor_tip_bound (fh.getD (2 * 10 ^ 9))
    (to_wei_gwei (fee_profile chain_name).1) (fee_profile chain_name).2 hm
  unfold get_eip1559_fees
  dsimp only
  exact h

/-- C2: an underpriced first rejection with auto-retry enabled triggers
exactly one resubmission whose fee fields are the 1.25-bumps of the first
attempt at the same nonce; a successful retry advances the handle nonce by
exactly 1 overall, and a second rejection propagates with no further
attempt. -/
theorem underpriced_retry_spec (env : SendEnv) (chain : Chain) (tx : Tx)
    (e : String) (h1 : env.send1 = .error e) (hu : isUnderpriced e = true)
    (hb : (build_and_send env chain tx true).attempts ≠ []) :
    ∃ a1 a2, (build_and_send env chain tx true).attempts = [a1, a2] ∧
      a2.tip = bump a1.tip ∧ a2.maxFee = bump a1.maxFee ∧
      a2.nonce = a1.nonce ∧ a2.gas = a1.gas ∧
      (∀ h, env.send2 = .ok h →
        (build_and_send env chain tx true).result = .ok h ∧
        (build_and_send env chain tx true).nonce = chain.nonce + 1) ∧
      (∀ e2, env.send2 = .error e2 →
        (build_and_send env chain tx true).result = .error e2 ∧
        (build_and_send env chain tx true).nonce = chain.nonce) := by
  cases hg : l2_guard_fails env chain tx with
  | true =>
    exact absurd (by simp [build_and_send, hg]) hb
  | false =>
    refine ⟨⟨filled_tip env chain tx, filled_max_fee env chain tx,
        tx.nonce.getD chain.nonce, chosen_gas env.estimateGas tx⟩,
      ⟨bump (filled_tip env chain tx), bump (filled_max_fee env chain tx),
        tx.nonce.getD chain.nonce, chosen_gas env.estimateGas tx⟩,
      ?_, rfl, rfl, rfl, rfl, fun h' hh' => ?_, fun e2' he2' => ?_⟩
    · cases hs2 : env.send2 <;> simp [build_and_send, hg, h1, hu, hs2]
    · constructor <;> simp [build_and_send, hg, h1, hu, hh']
    · constructor <;> simp [build_and_send, hg, h1, hu, he2']

/-- Concrete run of `underpriced_retry_spec`: both broadcasts rejected as
underpriced on a transaction with pre-set fee fields (100, 200): the call
fails with the second error and the nonce stays at its entry value 7. -/
def envC2 : SendEnv :=
  { send1 := .error "replacement transaction underpriced"
    send2 := .error "tx2 underpriced" }

def txC2 : Tx := { maxPriorityFeePerGas := some 100, maxFeePerGas := some 200 }

theorem underpriced_retry_spec_witness :
    (build_and_send envC2 ⟨"Sepolia", 7⟩ txC2 true).result =
      .error "tx2 underpriced" ∧
    (build_and_send envC2 ⟨"Sepolia", 7⟩ txC2 true).nonce = 7 := by
  obtain ⟨a1, a2, -, -, -, -, -, -, hprop⟩ :=
    underpriced_retry_spec envC2 ⟨"Sepolia", 7⟩ txC2
      "replacement transaction underpriced" rfl (by decide) (by decide)
  exact hprop "tx2 underpriced" rfl

/-- Loop characterization of the credit waiter: started at poll index `i`
with `fuel` iterations left, it returns true exactly when one of those
iterations observes the required delta. -/
lemma wait_for_l2_credit_go_iff (balances : ℕ → ℕ) (before : ℕ) (delta : ℤ) :
    ∀ (fuel i : ℕ),
      wait_for_l2_credit_go balances before delta i fuel = true ↔
        ∃ j, j < fuel ∧ delta ≤ (balances (i + j) : ℤ) - (before : ℤ) := by
  intro fuel
  induction fuel with
  | zero => intro i; simp [wait_for_l2_credit_go]
  | succ n ih =>
    intro i
    rw [wait_for_l2_credit_go]
    split
    · rename_i hcond
      simp only [true_iff]
      exact ⟨0, Nat.succ_pos n, by simpa using hcond⟩
    · rename_i hcond
      rw [ih (i + 1)]
      constructor
      · rintro ⟨j, hj, hP⟩
        exact ⟨j + 1, by omega, by rwa [show i + (j + 1) = i + 1 + j from by omega]⟩
      · rintro ⟨j, hj, hP⟩
        rcases j with - | j'
        · exact absurd (by simpa using hP) hcond
        · exact ⟨j', by omega, by rwa [show i + 1 + j' = i + (j' + 1) from by omega]⟩

/-- C3: `wait_for_l2_credit` with before-balance B and minimum delta D
returns true iff some polled destination balance satisfies balance − B ≥ D
within the timeout (modelled as the number of polls it admits), and returns
false — it is a total boolean function, raising nothing — exactly when the
timeout elapses with every polled balance short of the delta. -/
theorem wait_for_l2_credit_spec (balances : ℕ → ℕ) (before : ℕ) (delta : ℤ)
    (maxPolls : ℕ) :
    (wait_for_l2_credit balances before delta maxPolls = true ↔
      ∃ i, i < maxPolls ∧ delta ≤ (balances i : ℤ) - (before : ℤ)) ∧
    (wait_for_l2_credit balances before delta maxPolls = false ↔
      ∀ i, i < maxPolls → (balances i : ℤ) - (before : ℤ) < delta) := by
  have htrue : wait_for_l2_credit balances before delta maxPolls = true ↔
      ∃ i, i < maxPolls ∧ delta ≤ (balances i : ℤ) - (before : ℤ) := by
    simpa using wait_for_l2_credit_go_iff balances before delta maxPolls 0
  refine ⟨htrue, ?_⟩
  rw [← Bool.not_eq_true, htrue]
  simp only [not_exists, not_and, not_le]

/-- Concrete run of `wait_for_l2_credit_spec`: before-balance 10, expected
delta 50, and a balance of 100 first visible at the third poll: credit is
reported observed. -/
def balC3 : ℕ → ℕ := fun i => if i = 2 then 100 else 0

theorem wait_for_l2_credit_spec_witness :
    wait_for_l2_credit balC3 10 50 5 = true :=
  (wait_for_l2_credit_spec balC3 10 50 5).1.mpr
    ⟨2, by omega, by norm_num [balC3]⟩

/-- Loop characterization of the receipt waiter: started at poll index `i`
with `fuel` iterations left, it returns the first receipt observed together
with the number of polls performed, or `none` after all `fuel` polls. -/
lemma wait_receipt_go_spec (poll : ℕ → Except Unit (Option Receipt)) :
    ∀ (fuel i : ℕ),
      ((∀ j, j < fuel → receipt_of (poll (i + j)) = none) →
          wait_receipt_go poll i fuel = (none, i + fuel)) ∧
      (∀ k r, k < fuel → (∀ j, j < k → receipt_of (poll (i + j)) = none) →
          receipt_of (poll (i + k)) = some r →
          wait_receipt_go poll i fuel = (some r, i + k + 1)) := by
  intro fuel
  induction fuel with
  | zero =>
    intro i
    exact ⟨fun _ => by simp [wait_receipt_go],
      fun k r hk => absurd hk (Nat.not_lt_zero k)⟩
  | succ n ih =>
    intro i
    constructor
    · intro hnone
      rw [wait_receipt_go,
        show receipt_of (poll i) = none from by simpa using hnone 0 (by omega)]
      have hshift : ∀ j, j < n → receipt_of (poll (i + 1 + j)) = none := by
        intro j hj
        have := hnone (j + 1) (by omega)
        rwa [show i + (j + 1) = i + 1 + j from by omega] at this
      exact ((ih (i + 1)).1 hshift).trans
        (by rw [show i + 1 + n = i + (n + 1) from by omega])
    · intro k r hk hprev hcur
      rcases k with - | k'
      · rw [wait_receipt_go, show receipt_of (poll i) = some r from by simpa using hcur]
      · rw [wait_receipt_go,
          show receipt_of (poll i) = none from by simpa using hprev 0 (by omega)]
        have hshift : ∀ j, j < k' → receipt_of (poll (i + 1 + j)) = none := by
          intro j hj
          have := hprev (j + 1) (by omega)
          rwa [show i + (j + 1) = i + 1 + j from by omega] at this
        have hcur' : receipt_of (poll (i + 1 + k')) = some r := by
          rwa [show i + (k' + 1) = i + 1 + k' from by omega] at hcur
        exact ((ih (i + 1)).2 k' r (by omega) hshift hcur').trans
          (by rw [show i + 1 + k' + 1 = i + (k' + 1) + 1 from by omega])

/-- C9: the receipt waiter returns the receipt of the first poll at which
one is present — having kept polling through lookup errors — performing no
further poll after it, whatever the receipt status; and when every poll the
timeout admits yields no receipt it returns `none` rather than raising. -/
theorem wait_receipt_with_progress_spec
    (poll : ℕ → Except Unit (Option Receipt)) (maxPolls : ℕ) :
    (∀ k r, k < maxPolls → (∀ j, j < k → receipt_of (poll j) = none) →
        receipt_of (poll k) = some r →
        wait_receipt_with_progress poll maxPolls = (some r, k + 1)) ∧
    ((∀ j, j < maxPolls → receipt_of (poll j) = none) →
        wait_receipt_with_progress poll maxPolls = (none, maxPolls)) := by
  have h := wait_receipt_go_spec poll maxPolls 0
  constructor
  · intro k r hk hprev hcur
    have := h.2 k r hk (fun j hj => by simpa using hprev j hj) (by simpa using hcur)
    simpa [wait_receipt_with_progress] using this
  · intro hnone
    have := h.1 (fun j hj => by simpa using hnone j hj)
    simpa [wait_receipt_with_progress] using this

/-- Concrete run of `wait_receipt_with_progress_spec`: the first lookup
raises, the second returns a receipt; the waiter stops after exactly two
polls and returns that receipt. -/
def rcptC9 : Receipt := ⟨1, 21000⟩

def pollC9 : ℕ → Except Unit (Option Receipt) := fun i =>
  if i = 1 then .ok (some rcptC9) else .error ()

theorem wait_receipt_with_progress_spec_witness :
    wait_receipt_with_progress pollC9 120 = (some rcptC9, 2) :=
  (wait_receipt_with_progress_spec pollC9 120).1 1 rcptC9 (by omega)
    (fun j hj => by
      have hj0 : j = 0 := Nat.lt_one_iff.mp hj
      subst hj0
      decide)
    (by decide)

/-- Concrete environment refuting C4 as stated: pre-call balance 1 (positive
but below the required 10), the faucet transaction broadcasts fine but its
receipt reports on-chain failure (status 0). -/
def envC4 : ClaimEnv :=
  { balance := 1, claimSend := .ok "0xfaucet", claimReceipt := some ⟨0, 0⟩,
    newBalance := 1 }

/-- C4 counterexample: with a positive pre-call balance and a faucet claim
that failed (broadcast accepted, receipt status 0), the function returns
failure — refuting the claim that a failed faucet claim yields failure only
when the pre-call balance is exactly zero. -/
theorem check_and_claim_positive_balance_still_fails :
    0 < envC4.balance ∧ envC4.balance < 10 ∧
    (check_and_claim_erc20_balance envC4 10).1 = false := by decide

/-- C4 (amended): a pre-call balance ≥ required returns success with no
faucet call attempted; when the faucet flow raises an exception the call
returns failure exactly when the pre-call balance is zero; but when the
faucet transaction is broadcast and its receipt is absent or reports
failure, the call returns failure regardless of the pre-call balance. -/
theorem check_and_claim_spec (env : ClaimEnv) (req : ℕ) :
    (req ≤ env.balance → check_and_claim_erc20_balance env req = (true, false)) ∧
    (env.balance < req → ∀ e, env.claimSend = .error e →
        check_and_claim_erc20_balance env req = (decide (0 < env.balance), true)) ∧
    (env.balance < req → ∀ h, env.claimSend = .ok h →
        receipt_not_success env.claimReceipt = true →
        check_and_claim_erc20_balance env req = (false, true)) := by
  refine ⟨fun hge => ?_, fun hlt e hs => ?_, fun hlt h hs hr => ?_⟩
  · simp [check_and_claim_erc20_balance, hge]
  · simp [check_and_claim_erc20_balance, Nat.not_le.mpr hlt, hs]
  · simp [check_and_claim_erc20_balance, Nat.not_le.mpr hlt, hs, hr]

/-- Concrete run of `check_and_claim_spec`: balance 3 of required 10, the
faucet claim raises — the positive existing balance is reported usable. -/
theorem check_and_claim_spec_witness :
    check_and_claim_erc20_balance
      { balance := 3, claimSend := .error "execution reverted" } 10 =
      (true, true) :=
  (check_and_claim_spec
    { balance := 3, claimSend := .error "execution reverted" } 10).2.1
    (by norm_num) "execution reverted" rfl

/-- C7: `ensure_allowance` is idempotent.  A first call that does not raise
either no-ops (sufficient current allowance) or approves exactly
`max(required × 10, APPROVE_CEILING)`; the second call then reads an
allowance ≥ required and returns with no transaction, so the two calls
issue at most one approval transaction in total. -/
theorem ensure_allowance_idempotent (rOk1 rOk2 : Bool) (current req : ℕ)
    (h : (ensure_allowance rOk1 current req).raised = false) :
    (req ≤ current → ensure_allowance rOk1 current req = ⟨current, false, false⟩) ∧
    (current < req →
      (ensure_allowance rOk1 current req).allowance =
          max (req * 10) APPROVE_CEILING ∧
        (ensure_allowance rOk1 current req).txIssued = true) ∧
    ensure_allowance rOk2 (ensure_allowance rOk1 current req).allowance req =
      ⟨(ensure_allowance rOk1 current req).allowance, false, false⟩ ∧
    (if (ensure_allowance rOk1 current req).txIssued then 1 else 0) +
      (if (ensure_allowance rOk2
          (ensure_allowance rOk1 current req).allowance req).txIssued
        then 1 else 0) ≤ 1 := by
  by_cases hc : req ≤ current
  · have e1 : ensure_allowance rOk1 current req = ⟨current, false, false⟩ := by
      simp [ensure_allowance, hc]
    have e2 : ensure_allowance rOk2 current req = ⟨current, false, false⟩ := by
      simp [ensure_allowance, hc]
    refine ⟨fun _ => e1, fun hlt => absurd hc (by omega), ?_, ?_⟩ <;>
      simp [e1, e2]
  · have hr1 : rOk1 = true := by
      cases hr : rOk1
      · rw [hr] at h
        simp [ensure_allowance, hc] at h
      · rfl
    subst hr1
    have e1 : ensure_allowance true current req =
        ⟨max (req * 10) APPROVE_CEILING, true, false⟩ := by
      simp [ensure_allowance, hc]
    have hreq : req ≤ max (req * 10) APPROVE_CEILING :=
      le_trans (by omega) (le_max_left _ _)
    have e2 : ensure_allowance rOk2 (max (req * 10) APPROVE_CEILING) req =
        ⟨max (req * 10) APPROVE_CEILING, false, false⟩ := by
      simp [ensure_allowance, hreq]
    refine ⟨fun hge => absurd hge hc, fun _ => by rw [e1]; exact ⟨rfl, rfl⟩,
      ?_, ?_⟩ <;> simp [e1, e2]

/-- Concrete run of `ensure_allowance_idempotent`: allowance 0, required 5,
first approval confirmed; the second call is a pure read that issues no
transaction. -/
theorem ensure_allowance_idempotent_witness :
    ensure_allowance true (ensure_allowance true 0 5).allowance 5 =
      ⟨(ensure_allowance true 0 5).allowance, false, false⟩ :=
  (ensure_allowance_idempotent true true 0 5 rfl).2.2.1

/-- C8: a withdraw-token call that finds a zero destination token balance
and a source-chain native balance below the 0.01-ether recovery threshold
raises the recovery-impossible error having performed zero raw-transaction
broadcasts — nothing is signed or sent and no chain state is touched. -/
theorem withdraw_recovery_impossible (env : WithdrawEnv) (l2 : Chain)
    (amount : ℕ) (hz : env.l2TokenBalance = 0)
    (hl : env.l1EthBalance < RECOVERY_MIN_L1_ETH) :
    withdraw_erc20_to_l1 env l2 amount =
      (.error "L2 ERC-20 代币余额不足，已尝试自动获取但失败", 0) := by
  simp [withdraw_erc20_to_l1, hz, hl]

/-- Concrete run of `withdraw_recovery_impossible`: destination balance 0,
source native balance 5 wei, requested amount 10 tokens. -/
def envC8 : WithdrawEnv := { l2TokenBalance := 0, l1EthBalance := 5 }

theorem withdraw_recovery_impossible_witness :
    withdraw_erc20_to_l1 envC8 ⟨"GIWA Sepolia", 3⟩ (10 * 10 ^ 18) =
      (.error "L2 ERC-20 代币余额不足，已尝试自动获取但失败", 0) :=
  withdraw_recovery_impossible envC8 ⟨"GIWA Sepolia", 3⟩ (10 * 10 ^ 18) rfl
    (by norm_num [envC8, RECOVERY_MIN_L1_ETH])

end GiwaBot
